import Mathlib

/-!
Shallow embedding of the API-integration layer of the NanoBananaEditor
repository (the `GeminiService` adapter class in `src/src/App.tsx`, and the
standalone environment-configuration validation script shipped as
`src/unnamed/part_000`), together with theorems settling the frozen claims
about that code.

JavaScript strings are modelled as Lean `String`; JS string operations
(`includes`, `trim`, `split`, `startsWith`) are re-implemented below over
the character list so that every definition evaluates inside the kernel.
Optional / possibly-`undefined` JS values are modelled as `Option`;
JS truthiness on strings (the empty string is falsy) is modelled with
explicit comparisons against `""`. A rejected promise / thrown exception is
modelled as `Except.error` carrying the error message.
-/

namespace NanoBanana

/-! ### JS string primitives -/

/-- Model of JS `String.prototype.startsWith` over character lists:
`startsWithL hay needle` is true when `needle` is a prefix of `hay`. -/
def startsWithL : List Char → List Char → Bool
  | _, [] => true
  | [], _ :: _ => false
  | a :: as, b :: bs => (a == b) && startsWithL as bs

/-- Model of JS `String.prototype.includes` over character lists:
`containsL hay needle` is true when `needle` occurs contiguously in `hay`. -/
def containsL : List Char → List Char → Bool
  | [], needle => needle.isEmpty
  | a :: t, needle => startsWithL (a :: t) needle || containsL t needle

/-- Model of JS `s.includes(sub)`. -/
def includesStr (s sub : String) : Bool :=
  containsL s.data sub.data

/-- Model of JS `String.prototype.trim` (drop leading and trailing
whitespace). -/
def jsTrim (s : String) : String :=
  String.mk (((s.data.dropWhile Char.isWhitespace).reverse.dropWhile
    Char.isWhitespace).reverse)

/-- Auxiliary for `splitChar`: split a character list at every occurrence of
the separator character (JS `String.prototype.split` with a one-character
separator). -/
def splitCharAux (c : Char) : List Char → List (List Char)
  | [] => [[]]
  | a :: rest =>
    let r := splitCharAux c rest
    if a == c then [] :: r
    else
      match r with
      | h :: t => (a :: h) :: t
      | [] => [[a]]

/-- Model of JS `s.split(c)` for a single-character separator `c`. -/
def splitChar (c : Char) (s : String) : List String :=
  (splitCharAux c s.data).map String.mk

/-- Model of JS `Array.prototype.join(c)` for a one-character separator. -/
def joinChar (c : Char) : List String → String
  | [] => ""
  | h :: t => t.foldl (fun acc s => acc ++ String.mk [c] ++ s) h

/-! ### Configuration (`src/src/App.tsx` lines 87-119, 179-194) -/

/-- The `APIConfig` interface (App.tsx lines 106-111).  The optional
`apiToken?: string` field is an `Option String`. -/
structure APIConfig where
  baseUrl : String
  apiKey : String
  modelName : String
  apiToken : Option String
deriving DecidableEq

/-- A `Partial<APIConfig>` value as passed to `setConfig` and the
constructor: each field is either supplied (`some`) or absent (`none`). -/
structure APIConfigUpdate where
  baseUrl : Option String
  apiKey : Option String
  modelName : Option String
  apiToken : Option String
deriving DecidableEq

/-- The build-time environment (`import.meta.env.VITE_*` variables), each
possibly unset. -/
structure ViteEnv where
  geminiApiKey : Option String
  apiBaseUrl : Option String
  modelName : Option String
  apiToken : Option String

/-- JS `x || d` for an optional string `x`: the default is used when the
variable is unset or empty (falsy). -/
def orDefault (v : Option String) (d : String) : String :=
  match v with
  | some s => if s = "" then d else s
  | none => d

/-- The module-level `defaultConfig` (App.tsx lines 87-90, 114-119):
`API_KEY`, `API_BASE_URL`, `MODEL_NAME`, `API_TOKEN` with their fallback
values. -/
def defaultConfig (env : ViteEnv) : APIConfig :=
  { baseUrl := orDefault env.apiBaseUrl "https://generativelanguage.googleapis.com"
    apiKey := orDefault env.geminiApiKey "demo-key"
    modelName := orDefault env.modelName "gemini-2.5-flash-image-preview"
    apiToken := some (orDefault env.apiToken "") }

/-- The method setConfig (App.tsx lines 187-189): `this.config = {...this.config,
...config}` — supplied fields override, absent fields are kept. -/
def setConfig (cfg : APIConfig) (p : APIConfigUpdate) : APIConfig :=
  { baseUrl := p.baseUrl.getD cfg.baseUrl
    apiKey := p.apiKey.getD cfg.apiKey
    modelName := p.modelName.getD cfg.modelName
    apiToken := match p.apiToken with
      | some t => some t
      | none => cfg.apiToken }

/-- The constructor (App.tsx lines 182-184): `this.config =
{...defaultConfig, ...config}` with an optional partial argument. -/
def geminiServiceInit (env : ViteEnv) (p : Option APIConfigUpdate) : APIConfig :=
  match p with
  | some pc => setConfig (defaultConfig env) pc
  | none => defaultConfig env

/-! ### Object-identity model for `getConfig`

`getConfig` (App.tsx lines 192-194) returns `{...this.config}` — a fresh
object whose later mutation does not affect the service's own config
object.  JS object identity is modelled by a heap of config cells: the
service's config lives at one index, `getConfig` allocates a fresh cell
holding a copy, and mutating a cell is an update at its index. -/

/-- A heap of `APIConfig` objects; an object reference is an index. -/
structure ServiceHeap where
  cells : List APIConfig

/-- Dereference an object: read the config stored at index `i`. -/
def readCell (h : ServiceHeap) (i : Nat) : APIConfig :=
  (h.cells.get? i).getD ⟨"", "", "", none⟩

/-- The method getConfig on the service whose config object is at index `i`:
allocate a fresh object (at index `h.cells.length`) holding a copy of the
config, and return the heap together with the new object's index. -/
def getConfigAlloc (h : ServiceHeap) (i : Nat) : ServiceHeap × Nat :=
  (⟨h.cells ++ [readCell h i]⟩, h.cells.length)

/-- Mutate the object at index `j` (overwrite its contents). -/
def writeCell (h : ServiceHeap) (j : Nat) (c : APIConfig) : ServiceHeap :=
  ⟨h.cells.set j c⟩

/-! ### Request DTOs (App.tsx lines 121-148) -/

/-- The interface GenerationRequest (App.tsx lines 121-126). -/
structure GenerationRequest where
  prompt : String
  referenceImages : Option (List String)
  temperature : Option ℚ
  seed : Option Int

/-- The interface EditRequest (App.tsx lines 128-135). -/
structure EditRequest where
  instruction : String
  originalImage : String
  referenceImages : Option (List String)
  maskImage : Option String
  temperature : Option ℚ
  seed : Option Int

/-- One mask entry of `SegmentationResponse` (App.tsx lines 143-147):
a label, a 4-element bounding box and a base64 mask image. -/
structure SegMask where
  label : String
  box_2d : Int × Int × Int × Int
  mask : String
deriving DecidableEq

/-- The interface SegmentationResponse (App.tsx lines 142-148). -/
structure SegmentationResponse where
  masks : List SegMask
deriving DecidableEq

/-! ### Request payload contents (App.tsx lines 93-102, 351-379, 418-463) -/

/-- The `inline_data` object of a request part (App.tsx lines 97-100). -/
structure InlineData where
  mime_type : String
  data : String
deriving DecidableEq

/-- One element of `GenerationContent.parts` (App.tsx lines 95-101). -/
structure GPart where
  text : Option String
  inline_data : Option InlineData
deriving DecidableEq

/-- The interface GenerationContent (App.tsx lines 93-102). -/
structure GenerationContent where
  role : Option String
  parts : List GPart
deriving DecidableEq

/-- The reference-image parts pushed by the `request.referenceImages &&
request.referenceImages.length > 0` / `forEach(push)` blocks shared by
`generateImage` (App.tsx lines 361-370) and `editImage` (lines 436-445):
one `inline_data` part per reference image, in order, with no cap. -/
def refImageParts (refs : Option (List String)) : List GPart :=
  match refs with
  | some l =>
    if l.length > 0 then l.map (fun img => ⟨none, some ⟨"image/png", img⟩⟩)
    else []
  | none => []

/-- The `contents` array built by `generateImage` (App.tsx lines 353-370):
a single user turn whose parts are the prompt text followed by the
reference-image parts. -/
def generateContents (request : GenerationRequest) : List GenerationContent :=
  [⟨some "user", ⟨some request.prompt, none⟩ :: refImageParts request.referenceImages⟩]

/-- The method buildEditPrompt (App.tsx lines 566-576).  The mask instruction is
added only when `request.maskImage` is truthy (present and non-empty). -/
def buildEditPrompt (request : EditRequest) : String :=
  let maskInstruction :=
    match request.maskImage with
    | some m =>
      if m = "" then ""
      else "\n\nIMPORTANT: Apply changes ONLY where the mask image shows white pixels (value 255). Leave all other areas completely unchanged. Respect the mask boundaries precisely and maintain seamless blending at the edges."
    | none => ""
  "Edit this image according to the following instruction: " ++
    request.instruction ++
    "\n\nMaintain the original image\x27s lighting, perspective, and overall composition. Make the changes look natural and seamlessly integrated." ++
    maskInstruction ++
    "\n\nPreserve image quality and ensure the edit looks professional and realistic."

/-- The `contents` array built by `editImage` (App.tsx lines 420-454): the
edit prompt text, the original image part, the reference-image parts, and
finally the mask part when `request.maskImage` is truthy. -/
def editContents (request : EditRequest) : List GenerationContent :=
  let maskParts : List GPart :=
    match request.maskImage with
    | some m => if m = "" then [] else [⟨none, some ⟨"image/png", m⟩⟩]
    | none => []
  [⟨some "user",
    (⟨some (buildEditPrompt request), none⟩ ::
      ⟨none, some ⟨"image/png", request.originalImage⟩⟩ ::
      refImageParts request.referenceImages) ++ maskParts⟩]

/-- Total number of `inline_data` parts across a `contents` array. -/
def inlinePartCount (cs : List GenerationContent) : Nat :=
  (cs.map (fun c => c.parts.countP (fun p => p.inline_data.isSome))).sum

/-! ### Endpoint selection (App.tsx lines 384-387, 465-468, 535-538) -/

/-- Endpoint chosen by `generateImage` (App.tsx lines 384-387). -/
def generateEndpoint (cfg : APIConfig) : String :=
  if includesStr cfg.baseUrl "openai.com" then "/v1/chat/completions"
  else "/v1beta/models/" ++ cfg.modelName ++ ":generateContent"

/-- Endpoint chosen by `editImage` (App.tsx lines 465-468). -/
def editEndpoint (cfg : APIConfig) : String :=
  if includesStr cfg.baseUrl "openai.com" then "/v1/chat/completions"
  else "/v1beta/models/" ++ cfg.modelName ++ ":generateContent"

/-- Endpoint chosen by `segmentImage` (App.tsx lines 535-538). -/
def segmentEndpoint (cfg : APIConfig) : String :=
  if includesStr cfg.baseUrl "openai.com" then "/v1/chat/completions"
  else "/v1beta/models/" ++ cfg.modelName ++ ":generateContent"

/-! ### Request headers (`callAPI`, App.tsx lines 252-287) -/

/-- The headers built by `callAPI`.  `Content-Type` is always set; the
other three are set or omitted by the branch on the base URL. -/
structure RequestHeaders where
  contentType : String
  xGoogApiKey : Option String
  cookie : Option String
  authorization : Option String
deriving DecidableEq

/-- The `authToken` local of the non-Google branch (App.tsx lines
270-272): the API token when it is present with a non-blank trim,
otherwise the API key. -/
def effectiveAuthToken (cfg : APIConfig) : String :=
  match cfg.apiToken with
  | some t => if jsTrim t = "" then cfg.apiKey else t
  | none => cfg.apiKey

/-- The header-selection logic of `callAPI` (App.tsx lines 252-287).
When the base URL contains `googleapis.com`, `x-goog-api-key` carries the
API key (plus a `Cookie` header when the token is non-blank and contains
`SAPISID`) and no `Authorization` header is set.  Otherwise
`Authorization` carries `effectiveAuthToken` unless that value is falsy
or equals `demo-key` (lines 274-280: both branches of the inner
conditional assign the raw token value). -/
def buildHeaders (cfg : APIConfig) : RequestHeaders :=
  if includesStr cfg.baseUrl "googleapis.com" then
    { contentType := "application/json"
      xGoogApiKey := some cfg.apiKey
      cookie :=
        match cfg.apiToken with
        | some t =>
          if jsTrim t ≠ "" ∧ includesStr t "SAPISID" = true then some t else none
        | none => none
      authorization := none }
  else
    { contentType := "application/json"
      xGoogApiKey := none
      cookie := none
      authorization :=
        let authToken := effectiveAuthToken cfg
        if authToken ≠ "" ∧ authToken ≠ "demo-key" then some authToken
        else none }

/-! ### Response model (App.tsx lines 161-177) -/

/-- The `inlineData` object of a response part (App.tsx lines 166-168). -/
structure RespInlineData where
  data : String
deriving DecidableEq

/-- One response part (App.tsx lines 164-169). -/
structure RespPart where
  text : Option String
  inlineData : Option RespInlineData
deriving DecidableEq

/-- The `content` object of a response candidate; the `parts` field may be
absent at runtime (the code guards on it). -/
structure RespContent where
  parts : Option (List RespPart)
deriving DecidableEq

/-- One element of `candidates` (App.tsx lines 162-171); the `content`
field may be absent at runtime (the code guards on it). -/
structure Candidate where
  content : Option RespContent
deriving DecidableEq

/-- The `message` object of an OpenAI-shaped choice; its `content` may be
absent at runtime. -/
structure ChoiceMessage where
  content : Option String
deriving DecidableEq

/-- One element of `choices` (App.tsx lines 172-176). -/
structure Choice where
  message : Option ChoiceMessage
deriving DecidableEq

/-- The interface APIResponse (App.tsx lines 161-177). -/
structure APIResponse where
  candidates : Option (List Candidate)
  choices : Option (List Choice)
deriving DecidableEq

/-- The guard `response.candidates && response.candidates[0] &&
response.candidates[0].content && response.candidates[0].content.parts`
(App.tsx line 393): returns the parts array of the first candidate when
every link of the chain is present. -/
def geminiParts (r : APIResponse) : Option (List RespPart) :=
  match r.candidates with
  | some (c :: _) =>
    match c.content with
    | some ct => ct.parts
    | none => none
  | _ => none

/-- The response-to-images extraction shared verbatim by `generateImage`
(App.tsx lines 390-409) and `editImage` (lines 471-489): in the Gemini
branch collect every truthy `part.inlineData.data`; otherwise, when a
first choice exists, push `choices[0].message.content` when it is truthy;
when neither branch applies, throw `Invalid response format from API`. -/
def extractImages (r : APIResponse) : Except String (List String) :=
  match geminiParts r with
  | some ps =>
    .ok (ps.filterMap fun p =>
      match p.inlineData with
      | some d => if d.data = "" then none else some d.data
      | none => none)
  | none =>
    match r.choices with
    | some (ch :: _) =>
      .ok (match ch.message with
        | some m =>
          match m.content with
          | some c => if c = "" then [] else [c]
          | none => []
        | none => [])
    | _ => .error "Invalid response format from API"

/-- The guard of the Gemini branch of `segmentImage` (App.tsx line 545)
additionally requires `parts[0]` to exist: the first part of the first
candidate, when present. -/
def segFirstPart (r : APIResponse) : Option RespPart :=
  match geminiParts r with
  | some (p :: _) => some p
  | _ => none

/-- The response-text extraction of `segmentImage` (App.tsx lines
542-557): take the first Gemini part\x27s `text`, or the OpenAI message
`content`; throw `Invalid response format from API` when neither shape
matches, and `No text content in response` when the extracted text is
absent or empty. -/
def segmentText (r : APIResponse) : Except String String :=
  match segFirstPart r with
  | some p =>
    match p.text with
    | some t => if t = "" then .error "No text content in response" else .ok t
    | none => .error "No text content in response"
  | none =>
    match r.choices with
    | some (ch :: _) =>
      match ch.message with
      | some m =>
        match m.content with
        | some t => if t = "" then .error "No text content in response" else .ok t
        | none => .error "No text content in response"
      | none => .error "Invalid response format from API"
    | _ => .error "Invalid response format from API"

/-! ### The HTTP round trip (`callAPI`, App.tsx lines 248-349)

The network is outside the program: a call's outcome (rejection of
`fetch`, or a response with a status, status text and body text) is an
input to the model.  The JS builtins `JSON.parse` (used on the error body
in the 429 branch) and `response.json()` (used on the success body) are
likewise outside the repository's code and are passed in as parsing
oracles. -/

/-- One `@type`-tagged detail object of a Google error body. -/
structure ErrDetail where
  atType : Option String
  retryDelay : Option String
deriving DecidableEq

/-- The `error` object of a Google error body. -/
structure ErrInfo where
  details : Option (List ErrDetail)
deriving DecidableEq

/-- A parsed provider error body (`errorObj`, App.tsx line 328). -/
structure ErrObj where
  error : Option ErrInfo
deriving DecidableEq

/-- The retry-delay hint computed in the 429 branch (App.tsx lines
329-330): the `retryDelay` of the first detail whose `@type` contains
`RetryInfo`, with `未知` (unknown) when the chain is broken or the value
is falsy. -/
def retryDelayOf (e : ErrObj) : String :=
  let retryInfo :=
    match e.error with
    | some ei =>
      match ei.details with
      | some ds =>
        ds.find? (fun (d : ErrDetail) =>
          match d.atType with
          | some t => includesStr t "RetryInfo"
          | none => false)
      | none => none
    | none => none
  match retryInfo with
  | some d =>
    match d.retryDelay with
    | some r => if r = "" then "未知" else r
    | none => "未知"
  | none => "未知"

/-- The observable outcome of `fetch`: a rejection, or a settled response
with its HTTP status, status text and body text. -/
inductive FetchOutcome where
  | fail (msg : String)
  | resp (status : Nat) (statusText : String) (bodyText : String)

/-- The flag Response.ok per the fetch specification: status in the 200-299
range. -/
def respOk (status : Nat) : Bool :=
  200 ≤ status && status ≤ 299

/-- The error-propagation skeleton of `callAPI` (App.tsx lines 312-348):
on a fetch rejection the error propagates; on a non-ok response the 429
status is special-cased to throw a quota message carrying the retry-delay
hint parsed from the error body, any other non-ok status throws
`API call failed: ...`; on an ok response the parsed JSON body is
returned (a body `JSON.parse` failure propagates as an error). -/
def callAPI (parseErrorBody : String → Except Unit ErrObj)
    (parseJsonBody : String → Except Unit APIResponse)
    (outcome : FetchOutcome) : Except String APIResponse :=
  match outcome with
  | .fail msg => .error msg
  | .resp status statusText bodyText =>
    if respOk status then
      match parseJsonBody bodyText with
      | .ok r => .ok r
      | .error _ => .error "SyntaxError: Unexpected end of JSON input"
    else if status = 429 then
      match parseErrorBody bodyText with
      | .ok errObj =>
        .error ("API配额已达限制，请等待 " ++ retryDelayOf errObj ++
          " 后重试，或考虑升级API计划")
      | .error _ => .error "SyntaxError: Unexpected token in JSON"
    else
      .error ("API call failed: " ++ toString status ++ " " ++ statusText ++
        " - " ++ bodyText)

/-! ### The three operations (App.tsx lines 351-416, 418-496, 498-564)

Each operation runs `callAPI` and its response-shape handling inside a
`try`; every thrown error is caught, logged and re-thrown as the
operation's generic user-facing message. -/

/-- The method generateImage (App.tsx lines 351-416), response path. -/
def generateImage (parseErrorBody : String → Except Unit ErrObj)
    (parseJsonBody : String → Except Unit APIResponse)
    (outcome : FetchOutcome) : Except String (List String) :=
  match callAPI parseErrorBody parseJsonBody outcome with
  | .ok r =>
    match extractImages r with
    | .ok imgs => .ok imgs
    | .error _ => .error "Failed to generate image. Please try again."
  | .error _ => .error "Failed to generate image. Please try again."

/-- The method editImage (App.tsx lines 418-496), response path. -/
def editImage (parseErrorBody : String → Except Unit ErrObj)
    (parseJsonBody : String → Except Unit APIResponse)
    (outcome : FetchOutcome) : Except String (List String) :=
  match callAPI parseErrorBody parseJsonBody outcome with
  | .ok r =>
    match extractImages r with
    | .ok imgs => .ok imgs
    | .error _ => .error "Failed to edit image. Please try again."
  | .error _ => .error "Failed to edit image. Please try again."

/-- The method segmentImage (App.tsx lines 498-564), response path: extract the
response text and return its `JSON.parse` (the `parseSeg` oracle models
`JSON.parse(responseText) as SegmentationResponse`); every error becomes
the generic segment failure message. -/
def segmentImage (parseErrorBody : String → Except Unit ErrObj)
    (parseJsonBody : String → Except Unit APIResponse)
    (parseSeg : String → Except Unit SegmentationResponse)
    (outcome : FetchOutcome) : Except String SegmentationResponse :=
  match callAPI parseErrorBody parseJsonBody outcome with
  | .ok r =>
    match segmentText r with
    | .ok t =>
      match parseSeg t with
      | .ok sr => .ok sr
      | .error _ => .error "Failed to segment image. Please try again."
    | .error _ => .error "Failed to segment image. Please try again."
  | .error _ => .error "Failed to segment image. Please try again."

/-! ### The configuration-validation script (`src/unnamed/part_000`)

The script reads `.env` (exiting with code 1 when the file is missing,
lines 31-35), parses it into a key/value map (lines 41-49), computes
`hasApiKey` / `hasApiToken` (lines 83-84), walks the four variable checks
mutating `isValid` (lines 86-113), applies the combined authentication
check (lines 116-121) and the demo-key check (lines 161-164), and exits
with code 1 exactly when `isValid` ended up false (lines 171-177). -/

/-- Parse one line of the `.env` file (part_000 lines 41-49): trim, skip
blank lines and `#` comments, split on `=`; keep the entry when the key
part is truthy and at least one value part exists; the stored key and
value are trimmed, the value re-joining any further `=` pieces. -/
def parseEnvLine (line : String) : Option (String × String) :=
  let trimmed := jsTrim line
  if trimmed = "" then none
  else if startsWithL trimmed.data ['#'] then none
  else
    match splitChar '=' trimmed with
    | [] => none
    | key :: valueParts =>
      if key ≠ "" ∧ valueParts.length > 0 then
        some (jsTrim key, jsTrim (joinChar '=' valueParts))
      else none

/-- The `envVars` map (part_000 lines 38-49) as an association list in
file order. -/
def envVarsOf (content : String) : List (String × String) :=
  (splitChar '\n' content).filterMap parseEnvLine

/-- Lookup in `envVars`: JS object assignment lets the last occurrence of
a key win. -/
def lookupEnv (vars : List (String × String)) (k : String) : Option String :=
  (vars.reverse.find? (fun p => p.1 == k)).map Prod.snd

/-- The flag hasApiKey (part_000 line 83): the key is present, truthy, not the
placeholder, and does not contain `demo`. -/
def hasApiKeyB (vars : List (String × String)) : Bool :=
  match lookupEnv vars "VITE_GEMINI_API_KEY" with
  | some v => !(v == "") && !(v == "your_api_key_here") && !(includesStr v "demo")
  | none => false

/-- The flag hasApiToken (part_000 line 84): the token is present, truthy, and
its trim is truthy. -/
def hasApiTokenB (vars : List (String × String)) : Bool :=
  match lookupEnv vars "VITE_API_TOKEN" with
  | some v => !(v == "") && !(jsTrim v == "")
  | none => false

/-- One element of the `requiredVars` array (part_000 lines 55-80); only
the key and the `required` flag influence `isValid`. -/
structure VarCheck where
  key : String
  required : Bool

/-- The `requiredVars` array (part_000 lines 55-80); every entry has
`required: false`. -/
def requiredVars : List VarCheck :=
  [⟨"VITE_GEMINI_API_KEY", false⟩, ⟨"VITE_API_TOKEN", false⟩,
   ⟨"VITE_API_BASE_URL", false⟩, ⟨"VITE_MODEL_NAME", false⟩]

/-- One iteration of the `requiredVars.forEach` loop (part_000 lines
86-113), restricted to its effect on `isValid`. -/
def checkVar (vars : List (String × String)) (hk ht : Bool)
    (isValid : Bool) (vc : VarCheck) : Bool :=
  let value := lookupEnv vars vc.key
  let valueMissing :=
    match value with
    | some v => v == ""
    | none => true
  let geminiInvalid :=
    (vc.key == "VITE_GEMINI_API_KEY") &&
      (match value with
       | some v => (v == "your_api_key_here") || includesStr v "demo"
       | none => false)
  if valueMissing || geminiInvalid then
    if (vc.key == "VITE_GEMINI_API_KEY") && !ht then false
    else if (vc.key == "VITE_API_TOKEN") && !hk then false
    else if vc.required then false
    else isValid
  else isValid

/-- The final value of `isValid` for a parsed `envVars` map: the
`forEach` loop (part_000 lines 86-113), the combined authentication check
(line 116), and the demo-key check (lines 161-164). -/
def scriptIsValid (vars : List (String × String)) : Bool :=
  let hk := hasApiKeyB vars
  let ht := hasApiTokenB vars
  let v1 := requiredVars.foldl (checkVar vars hk ht) true
  let v2 := if !hk && !ht then false else v1
  match lookupEnv vars "VITE_GEMINI_API_KEY" with
  | some v => if !(v == "") && includesStr v "demo" then false else v2
  | none => v2

/-- Whether the script exits with status 1 (part_000 lines 31-35 for the
missing file, lines 171-177 for the final check); `none` models a missing
`.env` file. -/
def scriptExitsOne (envFile : Option String) : Bool :=
  match envFile with
  | none => true
  | some content => !(scriptIsValid (envVarsOf content))

/-- Whether the script prints the message that the API token takes
priority over the API key (part_000 lines 119-121). -/
def reportsTokenPriority (content : String) : Bool :=
  let vars := envVarsOf content
  !(!(hasApiKeyB vars) && !(hasApiTokenB vars)) &&
    (hasApiKeyB vars && hasApiTokenB vars)

/-- The demo-key check of part_000 lines 161-164: the key is present,
truthy, and contains `demo`. -/
def demoKeySet (vars : List (String × String)) : Bool :=
  match lookupEnv vars "VITE_GEMINI_API_KEY" with
  | some v => !(v == "") && includesStr v "demo"
  | none => false

/-! ### Claim-side definitions

These definitions follow the words of claims that turn out to diverge
from the code; each is compared against the corresponding definition
translated from the source. -/

/-- Claim C1's description of response extraction, following the claim's
words: in the Gemini shape return the `inlineData.data` strings of the
parts (those that carry one); otherwise, when `choices[0].message.content`
exists, return it as the single element; when neither shape matches,
reject (`none`). -/
def claimedExtractImages (r : APIResponse) : Option (List String) :=
  match geminiParts r with
  | some ps =>
    some (ps.filterMap fun p => (p.inlineData.map (fun d => d.data)))
  | none =>
    match r.choices with
    | some (ch :: _) =>
      (match ch.message with
       | some m =>
         match m.content with
         | some c => some [c]
         | none => none
       | none => none)
    | _ => none

/-- Claim C3's description of the `Authorization` header, following the
claim's words: never set for `googleapis.com` base URLs; otherwise set to
the API token when one is configured non-empty, else to the API key, and
omitted when the resulting value is absent (empty) or equals
`demo-key`. -/
def claimedAuthorizationHeader (cfg : APIConfig) : Option String :=
  if includesStr cfg.baseUrl "googleapis.com" then none
  else
    let v :=
      match cfg.apiToken with
      | some t => if t ≠ "" then t else cfg.apiKey
      | none => cfg.apiKey
    if v = "" ∨ v = "demo-key" then none else some v

/-- Claim C8's description of the script's failure condition, following
the claim's words: exit 1 iff the `.env` file is missing, or neither a
valid API key (present, not the placeholder, not containing `demo`) nor a
non-empty API token is configured. -/
def claimedScriptExitsOne (envFile : Option String) : Bool :=
  match envFile with
  | none => true
  | some content =>
    let vars := envVarsOf content
    let validKey := hasApiKeyB vars
    let nonEmptyToken :=
      match lookupEnv vars "VITE_API_TOKEN" with
      | some v => !(v == "")
      | none => false
    !validKey && !nonEmptyToken

/-! ### Concrete inputs used by counterexamples and witnesses -/

/-- A generation request carrying three reference images. -/
def genReqThreeRefs : GenerationRequest :=
  ⟨"a prompt", some ["ref1", "ref2", "ref3"], none, none⟩

/-- A non-Google configuration whose API token is whitespace-only and
whose API key is a real-looking key. -/
def cfgBlankToken : APIConfig :=
  ⟨"https://api.example.com", "sk-realkey", "some-model", some " "⟩

/-- A response with one choice that has no message: it matches neither
the Gemini parts shape nor the `choices[0].message.content` shape. -/
def respChoiceNoMessage : APIResponse :=
  ⟨none, some [⟨none⟩]⟩

/-- A Google 429 error body object carrying a RetryInfo detail with a
retry delay of 30s. -/
def errObj429 : ErrObj :=
  ⟨some ⟨some [⟨some "type.googleapis.com/google.rpc.RetryInfo", some "30s"⟩]⟩⟩

/-- An error-body parsing oracle that yields `errObj429`. -/
def parse429Body : String → Except Unit ErrObj :=
  fun _ => .ok errObj429

/-- A JSON-body parsing oracle that always fails (never consulted on
non-ok responses). -/
def parseNoJson : String → Except Unit APIResponse :=
  fun _ => .error ()

/-- A segmentation parsing oracle that always fails. -/
def parseNoSeg : String → Except Unit SegmentationResponse :=
  fun _ => .error ()

/-- A 429 fetch outcome. -/
def outcome429 : FetchOutcome :=
  .resp 429 "Too Many Requests" "rate limited"

/-- The `.env` content of the C8 counterexample: a `demo`-containing API
key alongside a real, non-empty API token. -/
def envDemoKeyWithToken : String :=
  "VITE_GEMINI_API_KEY=demo123\nVITE_API_TOKEN=sk-realtoken"

/-- Whether the `VITE_API_TOKEN` value is missing or empty (the guard of
the token iteration of the `forEach` loop, part_000 line 90). -/
def tokenMissingB (vars : List (String × String)) : Bool :=
  match lookupEnv vars "VITE_API_TOKEN" with
  | some v => v == ""
  | none => true

/-- An `.env` content configuring both a valid API key and a non-empty
API token. -/
def envBothConfigured : String :=
  "VITE_GEMINI_API_KEY=AIzaRealKey\nVITE_API_TOKEN=sk-tok"

/-- A Gemini-shaped response whose single part is text-only (no
`inlineData`). -/
def respTextOnly : APIResponse :=
  ⟨some [⟨some ⟨some [⟨some "hi there", none⟩]⟩⟩], none⟩

/-- A JSON-body oracle yielding `respTextOnly`. -/
def parseTextOnly : String → Except Unit APIResponse :=
  fun _ => .ok respTextOnly

/-- A Gemini-shaped response with one inline image part and one text
part. -/
def respOneImage : APIResponse :=
  ⟨some [⟨some ⟨some [⟨none, some ⟨"img1"⟩⟩, ⟨some "caption", none⟩]⟩⟩], none⟩

/-- A JSON-body oracle yielding `respOneImage`. -/
def parseOneImage : String → Except Unit APIResponse :=
  fun _ => .ok respOneImage

/-- A Gemini-shaped response whose first part carries segmentation JSON
text. -/
def respSegText : APIResponse :=
  ⟨some [⟨some ⟨some [⟨some "seg json", none⟩]⟩⟩], none⟩

/-- A JSON-body oracle yielding `respSegText`. -/
def parseSegText : String → Except Unit APIResponse :=
  fun _ => .ok respSegText

/-- A concrete segmentation result with one mask. -/
def segRespOne : SegmentationResponse :=
  ⟨[⟨"the red car", (10, 20, 30, 40), "maskdata"⟩]⟩

/-- A segmentation-parsing oracle yielding `segRespOne`. -/
def parseSegOk : String → Except Unit SegmentationResponse :=
  fun _ => .ok segRespOne

/-- A successful (status 200) fetch outcome. -/
def outcomeOk200 : FetchOutcome :=
  .resp 200 "OK" "response body"

/-- A configuration pointing at the native Google endpoint. -/
def cfgGoogle : APIConfig :=
  ⟨"https://generativelanguage.googleapis.com", "AIzaRealKey",
    "gemini-2.5-flash-image-preview", none⟩

/-- A configuration pointing at OpenAI. -/
def cfgOpenAI : APIConfig :=
  ⟨"https://api.openai.com", "sk-key", "gpt-image", none⟩

/-- A one-cell heap whose service config lives at index 0. -/
def heapOne : ServiceHeap :=
  ⟨[cfgGoogle]⟩

/-! ## Helper lemmas -/

/-- The Gemini endpoint string can never collide with the OpenAI chat
endpoint, whatever the model name (their lengths differ). -/
theorem gemini_endpoint_ne_chat (m : String) :
    "/v1beta/models/" ++ m ++ ":generateContent" ≠ "/v1/chat/completions" := by
  intro h
  have hlen := congrArg String.length h
  rw [String.length_append, String.length_append] at hlen
  have e1 : ("/v1beta/models/" : String).length = 15 := rfl
  have e2 : ((":generateContent" : String)).length = 16 := rfl
  have e3 : (("/v1/chat/completions" : String)).length = 20 := rfl
  rw [e1, e2, e3] at hlen
  omega

/-- Counting inline parts over the mapped reference images gives the
number of reference images. -/
theorem countP_inline_map_refs (l : List String) :
    (l.map (fun img => (⟨none, some ⟨"image/png", img⟩⟩ : GPart))).countP
      (fun p => p.inline_data.isSome) = l.length := by
  induction l with
  | nil => rfl
  | cons a t ih => simp [List.countP_cons, ih]

/-- The helper refImageParts contributes exactly one inline part per reference
image. -/
theorem countP_refImageParts (o : Option (List String)) :
    (refImageParts o).countP (fun p => p.inline_data.isSome) =
      (o.getD []).length := by
  cases o with
  | none => rfl
  | some l =>
    cases l with
    | nil => rfl
    | cons a t =>
      show (if (a :: t).length > 0 then
          (a :: t).map (fun img => (⟨none, some ⟨"image/png", img⟩⟩ : GPart))
        else []).countP (fun p => p.inline_data.isSome) = (a :: t).length
      rw [if_pos (by simp)]
      exact countP_inline_map_refs (a :: t)

/-! ## Claim C2 -/

/-- C2: for every configured base URL, all three operations
(`generateImage`, `editImage`, `segmentImage`) send their request to
`/v1/chat/completions` if and only if the base URL contains the substring
`openai.com`, and to `/v1beta/models/{model}:generateContent`
otherwise. -/
theorem endpoint_selection_by_base_url (cfg : APIConfig) :
    (generateEndpoint cfg = "/v1/chat/completions" ↔
      includesStr cfg.baseUrl "openai.com" = true) ∧
    (includesStr cfg.baseUrl "openai.com" = false →
      generateEndpoint cfg =
        "/v1beta/models/" ++ cfg.modelName ++ ":generateContent") ∧
    editEndpoint cfg = generateEndpoint cfg ∧
    segmentEndpoint cfg = generateEndpoint cfg := by
  unfold generateEndpoint editEndpoint segmentEndpoint
  cases h : includesStr cfg.baseUrl "openai.com" with
  | true =>
    refine ⟨?_, ?_, rfl, rfl⟩
    · simp
    · intro hfalse
      simp at hfalse
  | false =>
    refine ⟨?_, ?_, rfl, rfl⟩
    · simp [gemini_endpoint_ne_chat cfg.modelName]
    · intro _
      simp

/-- Witness for C2: at the OpenAI base URL the chat endpoint is chosen,
and at the Google base URL the Gemini endpoint is chosen. -/
theorem endpoint_selection_by_base_url_witness :
    generateEndpoint cfgOpenAI = "/v1/chat/completions" ∧
    generateEndpoint cfgGoogle =
      "/v1beta/models/gemini-2.5-flash-image-preview:generateContent" := by
  constructor
  · exact (endpoint_selection_by_base_url cfgOpenAI).1.mpr (by decide)
  · exact ((endpoint_selection_by_base_url cfgGoogle).2.1 (by decide)).trans rfl

/-! ## Claim C6 -/

/-- C6 counterexample: a generation request with three reference images
produces a payload with three reference-image `inline_data` parts (in the
generate payload every inline part originates from `referenceImages`), so
the payload does not contain at most 2 reference-image parts. -/
theorem reference_image_cap_counterexample :
    2 < inlinePartCount (generateContents genReqThreeRefs) := by decide

/-- C6 amended: the payload contains exactly one `inline_data` part per
element of the request's `referenceImages` array — the service enforces no
cap.  For an edit payload the inline parts are the original image, one per
reference image, and the mask when it is truthy. -/
theorem reference_image_parts_uncapped (greq : GenerationRequest)
    (ereq : EditRequest) :
    inlinePartCount (generateContents greq) =
      (greq.referenceImages.getD []).length ∧
    inlinePartCount (editContents ereq) =
      1 + (ereq.referenceImages.getD []).length +
        (match ereq.maskImage with
         | some m => if m = "" then 0 else 1
         | none => 0) := by
  constructor
  · unfold inlinePartCount generateContents
    simp [List.countP_cons, countP_refImageParts]
  · unfold inlinePartCount editContents
    simp only [List.map_cons, List.map_nil, List.sum_cons, List.sum_nil,
      List.countP_cons, List.countP_append, countP_refImageParts]
    cases hm : ereq.maskImage with
    | none => simp [List.countP_nil]; omega
    | some m =>
      by_cases hme : m = ""
      · simp [hme, List.countP_nil]; omega
      · simp [hme, List.countP_cons]; omega

/-! ## Claim C9 -/

/-- C9: `setConfig` with a partial configuration updates exactly the
supplied fields and leaves every other field unchanged; `getConfig`
returns a fresh copy (a new heap cell with equal contents, distinct from
the service's own cell) whose subsequent mutation does not alter the
service's internal configuration. -/
theorem set_config_frame_and_get_config_copy (cfg : APIConfig)
    (p : APIConfigUpdate) (h : ServiceHeap) (i : Nat) (c' : APIConfig)
    (hi : i < h.cells.length) :
    (p.baseUrl = none → (setConfig cfg p).baseUrl = cfg.baseUrl) ∧
    (∀ v, p.baseUrl = some v → (setConfig cfg p).baseUrl = v) ∧
    (p.apiKey = none → (setConfig cfg p).apiKey = cfg.apiKey) ∧
    (∀ v, p.apiKey = some v → (setConfig cfg p).apiKey = v) ∧
    (p.modelName = none → (setConfig cfg p).modelName = cfg.modelName) ∧
    (∀ v, p.modelName = some v → (setConfig cfg p).modelName = v) ∧
    (p.apiToken = none → (setConfig cfg p).apiToken = cfg.apiToken) ∧
    (∀ v, p.apiToken = some v → (setConfig cfg p).apiToken = some v) ∧
    readCell (getConfigAlloc h i).1 (getConfigAlloc h i).2 = readCell h i ∧
    (getConfigAlloc h i).2 ≠ i ∧
    readCell (writeCell (getConfigAlloc h i).1 (getConfigAlloc h i).2 c') i =
      readCell h i := by
  refine ⟨?_, ?_, ?_, ?_, ?_, ?_, ?_, ?_, ?_, ?_, ?_⟩
  · intro hv; simp [setConfig, hv]
  · intro v hv; simp [setConfig, hv]
  · intro hv; simp [setConfig, hv]
  · intro v hv; simp [setConfig, hv]
  · intro hv; simp [setConfig, hv]
  · intro v hv; simp [setConfig, hv]
  · intro hv; simp [setConfig, hv]
  · intro v hv; simp [setConfig, hv]
  · simp [readCell, getConfigAlloc, List.get?_eq_getElem?,
      List.getElem?_concat_length]
  · unfold getConfigAlloc
    simp only []
    omega
  · unfold readCell writeCell getConfigAlloc
    simp only [List.get?_eq_getElem?]
    rw [List.getElem?_set_ne (by omega)]
    rw [List.getElem?_append_left hi]

/-- Witness for C9: on a one-cell heap and a concrete partial update, the
supplied field is updated, the others are kept, and mutating the copy
returned by `getConfig` leaves the service's cell intact. -/
theorem set_config_frame_and_get_config_copy_witness :
    (setConfig cfgGoogle ⟨none, some "new-key", none, none⟩).apiKey = "new-key" ∧
    (setConfig cfgGoogle ⟨none, some "new-key", none, none⟩).baseUrl =
      cfgGoogle.baseUrl ∧
    readCell (writeCell (getConfigAlloc heapOne 0).1 (getConfigAlloc heapOne 0).2
      cfgOpenAI) 0 = readCell heapOne 0 := by
  have hthm := set_config_frame_and_get_config_copy cfgGoogle
    ⟨none, some "new-key", none, none⟩ heapOne 0 cfgOpenAI (by decide)
  exact ⟨hthm.2.2.2.1 "new-key" rfl, hthm.1 rfl, hthm.2.2.2.2.2.2.2.2.2.2⟩

/-! ## Claim C4 -/

/-- C4: every error arising during `generateImage`, `editImage` or
`segmentImage` (network failure, non-ok HTTP status, or unrecognized
response shape) is re-thrown as the operation's generic user-facing
message: each operation either resolves, or rejects with exactly its
generic message; in particular every `callAPI` error is replaced by the
generic message. -/
theorem operations_reject_with_generic_messages
    (pe : String → Except Unit ErrObj) (pj : String → Except Unit APIResponse)
    (psg : String → Except Unit SegmentationResponse) (outcome : FetchOutcome) :
    ((∃ v, generateImage pe pj outcome = .ok v) ∨
      generateImage pe pj outcome =
        .error "Failed to generate image. Please try again.") ∧
    ((∃ v, editImage pe pj outcome = .ok v) ∨
      editImage pe pj outcome =
        .error "Failed to edit image. Please try again.") ∧
    ((∃ v, segmentImage pe pj psg outcome = .ok v) ∨
      segmentImage pe pj psg outcome =
        .error "Failed to segment image. Please try again.") ∧
    (∀ e, callAPI pe pj outcome = .error e →
      generateImage pe pj outcome =
        .error "Failed to generate image. Please try again." ∧
      editImage pe pj outcome =
        .error "Failed to edit image. Please try again." ∧
      segmentImage pe pj psg outcome =
        .error "Failed to segment image. Please try again.") := by
  refine ⟨?_, ?_, ?_, ?_⟩
  · unfold generateImage
    rcases hc : callAPI pe pj outcome with e | r
    · right; rfl
    · rcases he : extractImages r with e | imgs
      · right; simp [he]
      · left; exact ⟨imgs, by simp [he]⟩
  · unfold editImage
    rcases hc : callAPI pe pj outcome with e | r
    · right; rfl
    · rcases he : extractImages r with e | imgs
      · right; simp [he]
      · left; exact ⟨imgs, by simp [he]⟩
  · unfold segmentImage
    rcases hc : callAPI pe pj outcome with e | r
    · right; rfl
    · rcases ht : segmentText r with e | t
      · right; simp [ht]
      · rcases hs : psg t with e | sr
        · right; simp [ht, hs]
        · left; exact ⟨sr, by simp [ht, hs]⟩
  · intro e hc
    unfold generateImage editImage segmentImage
    rw [hc]
    exact ⟨rfl, rfl, rfl⟩

/-- Witness for C4: on a network failure, all three operations reject
with their generic messages. -/
theorem operations_reject_with_generic_messages_witness :
    generateImage parse429Body parseNoJson (.fail "network down") =
      .error "Failed to generate image. Please try again." ∧
    editImage parse429Body parseNoJson (.fail "network down") =
      .error "Failed to edit image. Please try again." ∧
    segmentImage parse429Body parseNoJson parseNoSeg (.fail "network down") =
      .error "Failed to segment image. Please try again." :=
  (operations_reject_with_generic_messages parse429Body parseNoJson parseNoSeg
    (.fail "network down")).2.2.2 "network down" rfl

/-! ## Claim C10 -/

/-- C10: when the response has the Gemini candidates/parts shape but none
of the parts carries `inlineData` (for example text-only parts),
`generateImage` and `editImage` resolve successfully with the empty array
rather than rejecting. -/
theorem gemini_text_only_resolves_empty
    (pe : String → Except Unit ErrObj) (pj : String → Except Unit APIResponse)
    (outcome : FetchOutcome) (r : APIResponse) (ps : List RespPart)
    (hcall : callAPI pe pj outcome = .ok r)
    (hps : geminiParts r = some ps)
    (hnone : ∀ p ∈ ps, p.inlineData = none) :
    generateImage pe pj outcome = .ok [] ∧ editImage pe pj outcome = .ok [] := by
  have hext : extractImages r = .ok [] := by
    unfold extractImages
    rw [hps]
    have hfm : (ps.filterMap fun p =>
        match p.inlineData with
        | some d => if d.data = "" then none else some d.data
        | none => none) = [] := by
      rw [List.filterMap_eq_nil_iff]
      intro p hp
      rw [hnone p hp]
    simp [hfm]
  constructor
  · unfold generateImage
    rw [hcall]
    simp [hext]
  · unfold editImage
    rw [hcall]
    simp [hext]

/-- Witness for C10: a Gemini response whose only part is text resolves
both operations with the empty array. -/
theorem gemini_text_only_resolves_empty_witness :
    generateImage parse429Body parseTextOnly outcomeOk200 = .ok [] ∧
    editImage parse429Body parseTextOnly outcomeOk200 = .ok [] :=
  gemini_text_only_resolves_empty parse429Body parseTextOnly outcomeOk200
    respTextOnly [⟨some "hi there", none⟩] rfl rfl (by decide)

/-! ## Claim C1 -/

/-- C1 counterexample: the response with one choice that has no message
matches neither the Gemini candidates/parts shape nor the
`choices[0].message.content` shape, so the claim says the operations
reject; the code instead resolves with the empty array
(`extractImages` succeeds where the claimed behaviour rejects). -/
theorem extraction_claim_counterexample :
    extractImages respChoiceNoMessage = .ok [] ∧
    claimedExtractImages respChoiceNoMessage = none :=
  ⟨rfl, rfl⟩

/-- C1 amended: on a Gemini candidates/parts response the operations
resolve with the non-empty `inlineData.data` strings of the parts; on a
response with a first choice they resolve with the message content as a
single element when it is a non-empty string and with the empty array
otherwise; they reject (with the generic message) exactly when the
response has neither `candidates[0].content.parts` nor a `choices[0]`
element. -/
theorem extraction_characterization
    (pe : String → Except Unit ErrObj) (pj : String → Except Unit APIResponse)
    (outcome : FetchOutcome) (r : APIResponse)
    (hcall : callAPI pe pj outcome = .ok r) :
    (∀ ps, geminiParts r = some ps →
      generateImage pe pj outcome = .ok (ps.filterMap fun p =>
        match p.inlineData with
        | some d => if d.data = "" then none else some d.data
        | none => none) ∧
      editImage pe pj outcome = .ok (ps.filterMap fun p =>
        match p.inlineData with
        | some d => if d.data = "" then none else some d.data
        | none => none)) ∧
    (∀ ch rest, geminiParts r = none → r.choices = some (ch :: rest) →
      generateImage pe pj outcome = .ok (match ch.message with
        | some m =>
          match m.content with
          | some c => if c = "" then [] else [c]
          | none => []
        | none => []) ∧
      editImage pe pj outcome = .ok (match ch.message with
        | some m =>
          match m.content with
          | some c => if c = "" then [] else [c]
          | none => []
        | none => [])) ∧
    (geminiParts r = none → (r.choices = none ∨ r.choices = some []) →
      generateImage pe pj outcome =
        .error "Failed to generate image. Please try again." ∧
      editImage pe pj outcome =
        .error "Failed to edit image. Please try again.") := by
  refine ⟨?_, ?_, ?_⟩
  · intro ps hps
    have hext : extractImages r = .ok (ps.filterMap fun p =>
        match p.inlineData with
        | some d => if d.data = "" then none else some d.data
        | none => none) := by
      unfold extractImages
      rw [hps]
    constructor
    · unfold generateImage; rw [hcall]; simp [hext]
    · unfold editImage; rw [hcall]; simp [hext]
  · intro ch rest hg hch
    have hext : extractImages r = .ok (match ch.message with
        | some m =>
          match m.content with
          | some c => if c = "" then [] else [c]
          | none => []
        | none => []) := by
      unfold extractImages
      rw [hg, hch]
    constructor
    · unfold generateImage; rw [hcall]; simp [hext]
    · unfold editImage; rw [hcall]; simp [hext]
  · intro hg hch
    have hext : extractImages r = .error "Invalid response format from API" := by
      unfold extractImages
      rw [hg]
      rcases hch with h | h <;> rw [h]
    constructor
    · unfold generateImage; rw [hcall]; simp [hext]
    · unfold editImage; rw [hcall]; simp [hext]

/-- Witness for C1 (amended): on a Gemini response with one inline image
part and one text part, both operations resolve with exactly the one
image payload. -/
theorem extraction_characterization_witness :
    generateImage parse429Body parseOneImage outcomeOk200 = .ok ["img1"] ∧
    editImage parse429Body parseOneImage outcomeOk200 = .ok ["img1"] := by
  have hthm := (extraction_characterization parse429Body parseOneImage
    outcomeOk200 respOneImage rfl).1
    [⟨none, some ⟨"img1"⟩⟩, ⟨some "caption", none⟩] rfl
  exact ⟨hthm.1.trans rfl, hthm.2.trans rfl⟩

/-! ## Claim C3 -/

/-- C3 counterexample: with a non-Google base URL, a whitespace-only
(hence non-empty) configured API token and a real API key, the claim says
the `Authorization` header carries the token; the code trims the token,
finds it blank, and uses the API key instead. -/
theorem auth_header_claim_counterexample :
    (buildHeaders cfgBlankToken).authorization = some "sk-realkey" ∧
    claimedAuthorizationHeader cfgBlankToken = some " " ∧
    (buildHeaders cfgBlankToken).authorization ≠
      claimedAuthorizationHeader cfgBlankToken :=
  ⟨rfl, rfl, by decide⟩

/-- C3 amended: when the base URL contains `googleapis.com` the request
carries `x-goog-api-key` set to the configured API key and never an
`Authorization` header; otherwise `Authorization` carries the API token
when one is configured with non-blank content (non-empty trim), else the
API key, and is omitted exactly when the resulting value is empty or
equals `demo-key`. -/
theorem auth_header_selection (cfg : APIConfig) :
    (includesStr cfg.baseUrl "googleapis.com" = true →
      (buildHeaders cfg).xGoogApiKey = some cfg.apiKey ∧
      (buildHeaders cfg).authorization = none) ∧
    (includesStr cfg.baseUrl "googleapis.com" = false →
      (buildHeaders cfg).xGoogApiKey = none ∧
      ((effectiveAuthToken cfg = "" ∨ effectiveAuthToken cfg = "demo-key") →
        (buildHeaders cfg).authorization = none) ∧
      (effectiveAuthToken cfg ≠ "" → effectiveAuthToken cfg ≠ "demo-key" →
        (buildHeaders cfg).authorization = some (effectiveAuthToken cfg)) ∧
      (∀ t, cfg.apiToken = some t → jsTrim t ≠ "" → effectiveAuthToken cfg = t) ∧
      ((cfg.apiToken = none ∨ ∃ t, cfg.apiToken = some t ∧ jsTrim t = "") →
        effectiveAuthToken cfg = cfg.apiKey)) := by
  constructor
  · intro hg
    unfold buildHeaders
    rw [if_pos hg]
    exact ⟨rfl, rfl⟩
  · intro hg
    have hng : ¬ (includesStr cfg.baseUrl "googleapis.com" = true) := by
      rw [hg]; simp
    unfold buildHeaders
    rw [if_neg hng]
    refine ⟨rfl, ?_, ?_, ?_, ?_⟩
    · intro hv
      rcases hv with hv | hv <;>
        · show (if effectiveAuthToken cfg ≠ "" ∧
              effectiveAuthToken cfg ≠ "demo-key"
            then some (effectiveAuthToken cfg) else none) = none
          rw [if_neg]
          simp [hv]
    · intro h1 h2
      show (if effectiveAuthToken cfg ≠ "" ∧ effectiveAuthToken cfg ≠ "demo-key"
          then some (effectiveAuthToken cfg) else none) =
        some (effectiveAuthToken cfg)
      rw [if_pos ⟨h1, h2⟩]
    · intro t ht htrim
      unfold effectiveAuthToken
      rw [ht]
      simp [htrim]
    · intro hv
      unfold effectiveAuthToken
      rcases hv with hv | ⟨t, ht, htrim⟩
      · rw [hv]
      · rw [ht]
        simp [htrim]

/-- Witness for C3 (amended): at the Google base URL the key rides in
`x-goog-api-key` and no `Authorization` header is set; at the OpenAI base
URL the key rides in `Authorization`. -/
theorem auth_header_selection_witness :
    (buildHeaders cfgGoogle).xGoogApiKey = some "AIzaRealKey" ∧
    (buildHeaders cfgGoogle).authorization = none ∧
    (buildHeaders cfgOpenAI).authorization = some "sk-key" := by
  have hg := (auth_header_selection cfgGoogle).1 (by decide)
  have ho := ((auth_header_selection cfgOpenAI).2 (by decide)).2.2.1
    (by decide) (by decide)
  exact ⟨hg.1, hg.2, ho.trans rfl⟩

/-! ## Claim C5 -/

/-- C5 counterexample: on an HTTP 429 response whose error body parses to
a RetryInfo detail with delay 30s, the inner `callAPI` throws a rate-limit
message carrying the hint, but `generateImage` — the operation the user
awaits — rejects with the generic failure message, which does not include
the hint. -/
theorem rate_limit_hint_not_surfaced_counterexample :
    generateImage parse429Body parseNoJson outcome429 =
      .error "Failed to generate image. Please try again." ∧
    includesStr "Failed to generate image. Please try again." "30s" = false ∧
    callAPI parse429Body parseNoJson outcome429 =
      .error "API配额已达限制，请等待 30s 后重试，或考虑升级API计划" :=
  ⟨rfl, by decide, rfl⟩

/-- C5 amended: on an HTTP 429 response, `callAPI` throws a rate-limit
message that includes the retry-delay hint parsed from the RetryInfo
detail of the provider's JSON error body, but each operation's catch
replaces that message with its generic failure message, so the hint
reaches only the console log, not the operation's rejection. -/
theorem rate_limit_handling (pe : String → Except Unit ErrObj)
    (pj : String → Except Unit APIResponse)
    (psg : String → Except Unit SegmentationResponse)
    (statusText bodyText : String) (eobj : ErrObj)
    (hparse : pe bodyText = .ok eobj) :
    callAPI pe pj (.resp 429 statusText bodyText) =
      .error ("API配额已达限制，请等待 " ++ retryDelayOf eobj ++
        " 后重试，或考虑升级API计划") ∧
    generateImage pe pj (.resp 429 statusText bodyText) =
      .error "Failed to generate image. Please try again." ∧
    editImage pe pj (.resp 429 statusText bodyText) =
      .error "Failed to edit image. Please try again." ∧
    segmentImage pe pj psg (.resp 429 statusText bodyText) =
      .error "Failed to segment image. Please try again." ∧
    (∀ ds d rd, eobj.error = some ⟨some ds⟩ →
      ds.find? (fun (d' : ErrDetail) =>
        match d'.atType with
        | some t => includesStr t "RetryInfo"
        | none => false) = some d →
      d.retryDelay = some rd → rd ≠ "" → retryDelayOf eobj = rd) := by
  have hcall : callAPI pe pj (.resp 429 statusText bodyText) =
      .error ("API配额已达限制，请等待 " ++ retryDelayOf eobj ++
        " 后重试，或考虑升级API计划") := by
    unfold callAPI
    have h1 : respOk 429 = false := rfl
    simp [h1, hparse]
  refine ⟨hcall, ?_, ?_, ?_, ?_⟩
  · unfold generateImage; rw [hcall]
  · unfold editImage; rw [hcall]
  · unfold segmentImage; rw [hcall]
  · intro ds d rd herr hfind hrd hne
    unfold retryDelayOf
    rw [herr]
    simp [hfind, hrd, hne]

/-- Witness for C5 (amended): at the concrete 429 outcome with the 30s
RetryInfo body, `callAPI` carries the hint while `generateImage` rejects
generically. -/
theorem rate_limit_handling_witness :
    callAPI parse429Body parseNoJson
      (.resp 429 "Too Many Requests" "rate limited") =
      .error "API配额已达限制，请等待 30s 后重试，或考虑升级API计划" ∧
    generateImage parse429Body parseNoJson
      (.resp 429 "Too Many Requests" "rate limited") =
      .error "Failed to generate image. Please try again." := by
  have hthm := rate_limit_handling parse429Body parseNoJson parseNoSeg
    "Too Many Requests" "rate limited" errObj429 rfl
  exact ⟨hthm.1.trans rfl, hthm.2.1⟩

/-! ## Claim C7 -/

/-- C7: `segmentImage` extracts the first Gemini part's text, or the
OpenAI message content; it rejects when no text content is present or the
shape matches neither provider (with the generic segment failure message,
per the surrounding catch); otherwise it returns the JSON-parse of that
text as a `SegmentationResponse` (whose masks carry a label, a 4-element
bounding box and a mask image string, per the `SegMask` type). -/
theorem segment_response_handling
    (pe : String → Except Unit ErrObj) (pj : String → Except Unit APIResponse)
    (psg : String → Except Unit SegmentationResponse)
    (outcome : FetchOutcome) (r : APIResponse)
    (hcall : callAPI pe pj outcome = .ok r) :
    (∀ p t sr, segFirstPart r = some p → p.text = some t → t ≠ "" →
      psg t = .ok sr → segmentImage pe pj psg outcome = .ok sr) ∧
    (∀ ch rest m t sr, segFirstPart r = none → r.choices = some (ch :: rest) →
      ch.message = some m → m.content = some t → t ≠ "" → psg t = .ok sr →
      segmentImage pe pj psg outcome = .ok sr) ∧
    (∀ p, segFirstPart r = some p → (p.text = none ∨ p.text = some "") →
      segmentImage pe pj psg outcome =
        .error "Failed to segment image. Please try again.") ∧
    (∀ ch rest m, segFirstPart r = none → r.choices = some (ch :: rest) →
      ch.message = some m → (m.content = none ∨ m.content = some "") →
      segmentImage pe pj psg outcome =
        .error "Failed to segment image. Please try again.") ∧
    (segFirstPart r = none →
      (r.choices = none ∨ r.choices = some [] ∨
        (∃ ch rest, r.choices = some (ch :: rest) ∧ ch.message = none)) →
      segmentImage pe pj psg outcome =
        .error "Failed to segment image. Please try again.") := by
  refine ⟨?_, ?_, ?_, ?_, ?_⟩
  · intro p t sr hp ht htne hpsg
    have htext : segmentText r = .ok t := by
      unfold segmentText
      simp [hp, ht, htne]
    unfold segmentImage
    rw [hcall]
    simp [htext, hpsg]
  · intro ch rest m t sr hg hch hm hc htne hpsg
    have htext : segmentText r = .ok t := by
      unfold segmentText
      simp [hg, hch, hm, hc, htne]
    unfold segmentImage
    rw [hcall]
    simp [htext, hpsg]
  · intro p hp htext0
    have htext : segmentText r = .error "No text content in response" := by
      unfold segmentText
      rcases htext0 with h | h <;> simp [hp, h]
    unfold segmentImage
    rw [hcall]
    simp [htext]
  · intro ch rest m hg hch hm hc
    have htext : segmentText r = .error "No text content in response" := by
      unfold segmentText
      rcases hc with h | h <;> simp [hg, hch, hm, h]
    unfold segmentImage
    rw [hcall]
    simp [htext]
  · intro hg hshape
    have htext : segmentText r = .error "Invalid response format from API" := by
      unfold segmentText
      rcases hshape with h | h | ⟨ch, rest, hch, hm⟩
      · simp [hg, h]
      · simp [hg, h]
      · simp [hg, hch, hm]
    unfold segmentImage
    rw [hcall]
    simp [htext]

/-- Witness for C7: on a Gemini response whose first part is non-empty
text that parses to a one-mask segmentation result, `segmentImage`
resolves with that result. -/
theorem segment_response_handling_witness :
    segmentImage parse429Body parseSegText parseSegOk outcomeOk200 =
      .ok segRespOne :=
  (segment_response_handling parse429Body parseSegText parseSegOk
    outcomeOk200 respSegText rfl).1
    ⟨some "seg json", none⟩ "seg json" segRespOne rfl rfl (by decide) rfl

/-! ## Claim C8 -/

/-- The API-key iteration of the `forEach` loop clears `isValid` exactly
when the key is invalid (which coincides with `!hasApiKey`) and no token
is configured. -/
theorem checkVar_gemini_eq (vars : List (String × String)) (hk ht b : Bool) :
    checkVar vars hk ht b ⟨"VITE_GEMINI_API_KEY", false⟩ =
      (b && (hasApiKeyB vars || ht)) := by
  cases hv : lookupEnv vars "VITE_GEMINI_API_KEY" with
  | none =>
    simp only [checkVar, hasApiKeyB, hv]
    revert hk ht b
    decide
  | some v =>
    simp only [checkVar, hasApiKeyB, hv]
    generalize (v == "") = b1
    generalize (v == "your_api_key_here") = b2
    generalize includesStr v "demo" = b3
    revert hk ht b b1 b2 b3
    decide

/-- The API-token iteration of the `forEach` loop clears `isValid`
exactly when the token value is missing and no valid API key is
configured. -/
theorem checkVar_token_eq (vars : List (String × String)) (hk ht b : Bool) :
    checkVar vars hk ht b ⟨"VITE_API_TOKEN", false⟩ =
      (b && !(tokenMissingB vars && !hk)) := by
  cases hv : lookupEnv vars "VITE_API_TOKEN" with
  | none =>
    simp only [checkVar, tokenMissingB, hv]
    revert hk ht b
    decide
  | some v =>
    simp only [checkVar, tokenMissingB, hv]
    generalize (v == "") = b1
    generalize (v == "your_api_key_here") = b2
    generalize includesStr v "demo" = b3
    revert hk ht b b1 b2 b3
    decide

/-- The base-URL iteration of the `forEach` loop never clears
`isValid`. -/
theorem checkVar_base_eq (vars : List (String × String)) (hk ht b : Bool) :
    checkVar vars hk ht b ⟨"VITE_API_BASE_URL", false⟩ = b := by
  cases hv : lookupEnv vars "VITE_API_BASE_URL" with
  | none =>
    simp only [checkVar, hv]
    revert hk ht b
    decide
  | some v =>
    simp only [checkVar, hv]
    generalize (v == "") = b1
    generalize (v == "your_api_key_here") = b2
    generalize includesStr v "demo" = b3
    revert hk ht b b1 b2 b3
    decide

/-- The model-name iteration of the `forEach` loop never clears
`isValid`. -/
theorem checkVar_model_eq (vars : List (String × String)) (hk ht b : Bool) :
    checkVar vars hk ht b ⟨"VITE_MODEL_NAME", false⟩ = b := by
  cases hv : lookupEnv vars "VITE_MODEL_NAME" with
  | none =>
    simp only [checkVar, hv]
    revert hk ht b
    decide
  | some v =>
    simp only [checkVar, hv]
    generalize (v == "") = b1
    generalize (v == "your_api_key_here") = b2
    generalize includesStr v "demo" = b3
    revert hk ht b b1 b2 b3
    decide

/-- The script's final `isValid` is false exactly when neither a valid
API key nor a usable API token is configured, or the configured key
contains `demo`. -/
theorem scriptIsValid_eq (vars : List (String × String)) :
    scriptIsValid vars =
      !((!hasApiKeyB vars && !hasApiTokenB vars) || demoKeySet vars) := by
  simp only [scriptIsValid, requiredVars, List.foldl_cons, List.foldl_nil]
  rw [checkVar_gemini_eq, checkVar_token_eq, checkVar_base_eq, checkVar_model_eq]
  cases hG : lookupEnv vars "VITE_GEMINI_API_KEY" with
  | none =>
    cases hT : lookupEnv vars "VITE_API_TOKEN" with
    | none =>
      simp only [hasApiKeyB, hasApiTokenB, tokenMissingB, demoKeySet, hG, hT]
      decide
    | some w =>
      simp only [hasApiKeyB, hasApiTokenB, tokenMissingB, demoKeySet, hG, hT]
      generalize (w == "") = c1
      generalize (jsTrim w == "") = c2
      revert c1 c2
      decide
  | some v =>
    cases hT : lookupEnv vars "VITE_API_TOKEN" with
    | none =>
      simp only [hasApiKeyB, hasApiTokenB, tokenMissingB, demoKeySet, hG, hT]
      generalize (v == "") = b1
      generalize (v == "your_api_key_here") = b2
      generalize includesStr v "demo" = b3
      revert b1 b2 b3
      decide
    | some w =>
      simp only [hasApiKeyB, hasApiTokenB, tokenMissingB, demoKeySet, hG, hT]
      generalize (v == "") = b1
      generalize (v == "your_api_key_here") = b2
      generalize includesStr v "demo" = b3
      generalize (w == "") = c1
      generalize (jsTrim w == "") = c2
      revert b1 b2 b3 c1 c2
      decide

/-- C8 counterexample: with a `demo`-containing API key and a non-empty
API token configured, the script still exits with status 1 (part_000
lines 161-164 clear `isValid` regardless of the token), although the
claimed condition — neither a valid key nor a non-empty token — is
false. -/
theorem script_exit_claim_counterexample :
    scriptExitsOne (some envDemoKeyWithToken) = true ∧
    hasApiTokenB (envVarsOf envDemoKeyWithToken) = true ∧
    claimedScriptExitsOne (some envDemoKeyWithToken) = false :=
  ⟨by decide, by decide, by decide⟩

/-- C8 amended: the script exits with failure status exactly when the
`.env` file is missing, or neither a valid API key (present, not the
placeholder, not containing `demo`) nor an API token with non-blank
content is configured, or the configured API key contains `demo` (this
last case fails the run even when a token is configured); when both a
valid key and a token are configured it passes and reports that the API
token takes priority. -/
theorem script_exit_characterization (content : String) :
    scriptExitsOne none = true ∧
    scriptExitsOne (some content) =
      ((!hasApiKeyB (envVarsOf content) && !hasApiTokenB (envVarsOf content)) ||
        demoKeySet (envVarsOf content)) ∧
    ((hasApiKeyB (envVarsOf content) && hasApiTokenB (envVarsOf content)) = true →
      scriptExitsOne (some content) = false ∧
      reportsTokenPriority content = true) := by
  have hexit : scriptExitsOne (some content) =
      !(scriptIsValid (envVarsOf content)) := rfl
  refine ⟨rfl, ?_, ?_⟩
  · rw [hexit, scriptIsValid_eq]
    simp
  · intro hb
    rw [Bool.and_eq_true] at hb
    obtain ⟨hk, ht⟩ := hb
    have hdm : demoKeySet (envVarsOf content) = false := by
      have hk' := hk
      unfold hasApiKeyB at hk'
      unfold demoKeySet
      cases hG : lookupEnv (envVarsOf content) "VITE_GEMINI_API_KEY" with
      | none => rfl
      | some v =>
        simp only [hG] at hk'
        cases hdec : includesStr v "demo" with
        | false => simp [hdec]
        | true =>
          rw [hdec] at hk'
          simp at hk'
    constructor
    · rw [hexit, scriptIsValid_eq]
      simp [hk, ht, hdm]
    · unfold reportsTokenPriority
      simp [hk, ht]

/-- Witness for C8 (amended): a concrete `.env` with both a valid key and
a token passes and reports the token's priority. -/
theorem script_exit_characterization_witness :
    scriptExitsOne (some envBothConfigured) = false ∧
    reportsTokenPriority envBothConfigured = true :=
  (script_exit_characterization envBothConfigured).2.2 (by decide)

end NanoBanana
